import Mathlib

/-!
Shallow embedding of the authentication core of the Airline Management
repository (src/Auth_Service/src/controllers/user-controller.js, which
concatenates the user controller, the UserRepository data-access layer
and the UserService business-logic layer).

JavaScript async functions that may throw are embedded as `Except JsErr α`.
The relational store (Sequelize User/Role models) is embedded as an explicit
`Store` value threaded through the repository operations.  The external
jsonwebtoken library is embedded by an inductive token type: a token is
either a well-formed signed blob (claims payload, issued-at, expiry and the
key that signed it) or an unparseable string; `jwt.verify` rejects a wrong
signing key or a malformed blob with a JsonWebTokenError and an elapsed
expiry with a TokenExpiredError, and otherwise returns the decoded payload.
The external bcrypt library is embedded as a pair of functions
(hash, compareSync) kept abstract in a `Bcrypt` structure, so that theorems
about data flow hold for every hash function.
-/

namespace AuthService

/-- JavaScript runtime values, as far as the return values of the embedded
functions need them (the service returns booleans and JSON-like objects). -/
inductive JsValue where
  | vNull
  | vUndefined
  | vBool (b : Bool)
  | vNum (n : Int)
  | vStr (s : String)
  | vObj (fields : List (String × JsValue))
deriving Repr

/-- JavaScript truthiness: `null`, `undefined`, `false`, `0` and the empty
string are falsy; every object is truthy. -/
def truthy : JsValue → Bool
  | .vNull => false
  | .vUndefined => false
  | .vBool b => b
  | .vNum n => n != 0
  | .vStr s => s != ""
  | .vObj _ => true

/-- The error values the embedded code can throw, plus the spec taxonomy
name `accountNotFound` (declared so the spec claims about it are statable;
no code path of the source produces it).
`typeError msg` is a JavaScript TypeError raised by dereferencing `null`;
`objError msg` is an ad-hoc thrown object literal whose `error` field is
`msg`; `jwtInvalid` is the jsonwebtoken JsonWebTokenError (bad signature or
unparseable token); `jwtExpired` is the jsonwebtoken TokenExpiredError. -/
inductive JsErr where
  | typeError (msg : String)
  | objError (msg : String)
  | jwtInvalid
  | jwtExpired
  | accountNotFound
deriving Repr, DecidableEq

/-- A row of the Users table: id, email and the stored password column
(the secret-hash). -/
structure UserRec where
  id : Nat
  email : String
  password : String
deriving Repr, DecidableEq

/-- A row of the Roles table. -/
structure RoleRec where
  id : Nat
  name : String
deriving Repr, DecidableEq

/-- The relational store visible to the repository layer: the Users and
Roles tables and the many-to-many membership edges (userId, roleId). -/
structure Store where
  users : List UserRec
  roles : List RoleRec
  userRoles : List (Nat × Nat)
deriving Repr, DecidableEq

/-- `User.findByPk(userId)`: first user row with that primary key, or null. -/
def findByPk (st : Store) (uid : Nat) : Option UserRec :=
  st.users.find? (fun u => u.id == uid)

/-- The projection `attributes: ['email', 'id']` used by
`UserRepository.getById`: the password column is excluded. -/
structure UserSummary where
  email : String
  id : Nat
deriving Repr, DecidableEq

/-- `UserRepository.getById(userId)`: `User.findByPk` restricted to the
email and id attributes (user-controller.js lines 185-196). -/
def UserRepository.getById (st : Store) (uid : Nat) : Option UserSummary :=
  (findByPk st uid).map (fun u => { email := u.email, id := u.id })

/-- `UserRepository.getByEmail(userEmail)`: `User.findOne` on the email
column, returning the full row including the password
(user-controller.js lines 203-211). -/
def UserRepository.getByEmail (st : Store) (e : String) : Option UserRec :=
  st.users.find? (fun u => u.email == e)

/-- `Role.findOne(where name)`: first role row with that name, or null. -/
def Role.findOne (st : Store) (name : String) : Option RoleRec :=
  st.roles.find? (fun r => r.name == name)

/-- The Sequelize many-to-many mixin `user.hasRole(role)` (external
library).  Passed an actual role row it reports whether the membership
edge exists; passed `null` (the role name did not resolve) it matches the
join table against a null primary key, finds nothing and resolves `false`
-- the spec words: a non-existent role name is treated as no membership. -/
def hasRoleMixin (st : Store) (uid : Nat) (r : Option RoleRec) : Bool :=
  match r with
  | none => false
  | some role => st.userRoles.contains (uid, role.id)

/-- `UserRepository.isAdmin(userId)` (user-controller.js lines 219-229):
fetches the user by primary key, fetches the role named ADMIN, then calls
`user.hasRole(adminRole)`.  When no user with that id exists, `findByPk`
returns null and the method call on null raises a TypeError. -/
def UserRepository.isAdmin (st : Store) (uid : Nat) : Except JsErr Bool :=
  match findByPk st uid with
  | none => .error (.typeError "Cannot read properties of null (reading hasRole)")
  | some u => .ok (hasRoleMixin st u.id (Role.findOne st "ADMIN"))

/-- A parameterised role-membership query written from the spec words
(hasRole(identity, roleName) resolves the Role by name and asks the store
whether the membership edge exists), for comparison with the source
`UserRepository.isAdmin`, whose role name is hardcoded. -/
def hasRoleNamed (st : Store) (uid : Nat) (roleName : String) : Except JsErr Bool :=
  match findByPk st uid with
  | none => .error (.typeError "Cannot read properties of null (reading hasRole)")
  | some u => .ok (hasRoleMixin st u.id (Role.findOne st roleName))

/-- The external bcrypt library: a salted hash computation and the
verification `compareSync(plain, stored)`.  Kept abstract so data-flow
theorems hold for every hash function; properties such as
"hash(p) never equals p" enter as explicit hypotheses. -/
structure Bcrypt where
  hashWith : Nat → String → String
  compareSync : String → String → Bool

/-- The request body passed to registration: email and plaintext password. -/
structure SignupData where
  email : String
  password : String
deriving Repr, DecidableEq

/-- Modelled from the spec: the Sequelize User model file
(Auth_Service src/models/user.js) is not in the source tree -- only its
caller `UserRepository.create` is.  Per the spec, registration computes
hash(plaintext) and asks the Credential Store to persist a new Account
with that email and hash; the plaintext is never stored.  The store
assigns the next id and returns the full created row. -/
def User.create (B : Bcrypt) (salt : Nat) (st : Store) (nextId : Nat)
    (data : SignupData) : Store × UserRec :=
  let u : UserRec :=
    { id := nextId, email := data.email, password := B.hashWith salt data.password }
  ({ st with users := st.users ++ [u] }, u)

/-- `UserRepository.create(data)` (user-controller.js lines 149-161):
delegates to `User.create` and returns the created row unchanged. -/
def UserRepository.create (B : Bcrypt) (salt : Nat) (st : Store) (nextId : Nat)
    (data : SignupData) : Store × UserRec :=
  User.create B salt st nextId data

/-- `UserService.create(data)` (user-controller.js lines 258-274):
delegates to the repository and returns the created row unchanged
(the catch clause only rethrows or wraps, it does not filter fields). -/
def UserService.create (B : Bcrypt) (salt : Nat) (st : Store) (nextId : Nat)
    (data : SignupData) : Store × UserRec :=
  UserRepository.create B salt st nextId data

/-- What `res.json({... data: response ...})` serialises for a created user
row: every attribute of the record, the password column included. -/
def userToJson (u : UserRec) : JsValue :=
  .vObj [("id", .vNum u.id), ("email", .vStr u.email), ("password", .vStr u.password)]

/-- The claims payload the service signs: `{ email: user.email, id: user.id }`. -/
structure Claims where
  email : String
  id : Nat
deriving Repr, DecidableEq

/-- A token string as jsonwebtoken sees it: either a well-formed signed
blob carrying a claims payload, the issued-at and expiry timestamps and
the key whose signature it bears, or an unparseable string. -/
inductive TokenBytes where
  | signed (payload : Claims) (iat tokenExp : Nat) (key : String)
  | malformed (s : String)
deriving Repr, DecidableEq

/-- The fixed token time-to-live: `expiresIn: '1d'`, in seconds. -/
def oneDay : Nat := 86400

/-- `UserService.createToken(user)` (user-controller.js lines 332-341):
`jwt.sign(user, JWT_KEY, { expiresIn: '1d' })` -- signs the payload with
the service key, stamping issued-at `now` and expiry `now + oneDay`. -/
def UserService.createToken (key : String) (now : Nat) (user : Claims) : TokenBytes :=
  .signed user now (now + oneDay) key

/-- The decoded payload `jwt.verify` returns on success: the original
claims fields together with the iat and exp registered claims. -/
structure Decoded where
  email : String
  id : Nat
  iat : Nat
  tokenExp : Nat
deriving Repr, DecidableEq

/-- `UserService.verifyToken(token)` (user-controller.js lines 348-356):
`jwt.verify(token, JWT_KEY)` rethrown unchanged.  jsonwebtoken raises
JsonWebTokenError when the token cannot be parsed or its signature was not
made with the expected key (checked first), TokenExpiredError when the
current time has reached the encoded expiry, and otherwise returns the
decoded payload. -/
def UserService.verifyToken (key : String) (now : Nat) (t : TokenBytes) :
    Except JsErr Decoded :=
  match t with
  | .malformed _ => .error .jwtInvalid
  | .signed p iat texp k =>
    if k = key then
      if texp ≤ now then .error .jwtExpired
      else .ok { email := p.email, id := p.id, iat := iat, tokenExp := texp }
    else .error .jwtInvalid

/-- `UserService.checkPassword` (user-controller.js lines 364-372):
`bcrypt.compareSync(plain, stored)`. -/
def UserService.checkPassword (B : Bcrypt) (plain stored : String) : Bool :=
  B.compareSync plain stored

/-- `UserService.signIn(email, plainPassword)` (user-controller.js lines
282-300): fetches the user by email; when none exists the lookup yields
null and reading `user.password` raises a TypeError; when the password
does not verify it throws the object literal with error field
"Incorrect password"; otherwise it signs `{ email, id }` into a token. -/
def UserService.signIn (B : Bcrypt) (st : Store) (key : String) (now : Nat)
    (email plainPassword : String) : Except JsErr TokenBytes :=
  match UserRepository.getByEmail st email with
  | none => .error (.typeError "Cannot read properties of null (reading password)")
  | some user =>
    if UserService.checkPassword B plainPassword user.password then
      .ok (UserService.createToken key now { email := user.email, id := user.id })
    else
      .error (.objError "Incorrect password")

/-- The JavaScript object value of a decoded payload, for the truthiness
test `if (!response)` in `isAuthenticated`. -/
def decodedToJs (d : Decoded) : JsValue :=
  .vObj [("email", .vStr d.email), ("id", .vNum d.id),
         ("iat", .vNum d.iat), ("exp", .vNum d.tokenExp)]

/-- `UserService.isAuthenticated(token)` (user-controller.js lines 307-325):
verifies the token (errors propagate), guards `if (!response)` with the
thrown object literal "Invalid token", re-fetches the user by the decoded
id and throws the object literal "No user with the corresponding token
exists" when the account is gone; on success it returns the JavaScript
boolean `true`. -/
def UserService.isAuthenticated (key : String) (now : Nat) (st : Store)
    (t : TokenBytes) : Except JsErr JsValue :=
  match UserService.verifyToken key now t with
  | .error e => .error e
  | .ok response =>
    if truthy (decodedToJs response) then
      match UserRepository.getById st response.id with
      | none => .error (.objError "No user with the corresponding token exists")
      | some _ => .ok (.vBool true)
    else .error (.objError "Invalid token")

/-- `UserService.isAdmin(userId)` (user-controller.js lines 379-386):
delegates to the repository; the catch clause only rethrows. -/
def UserService.isAdmin (st : Store) (uid : Nat) : Except JsErr Bool :=
  UserRepository.isAdmin st uid

/-- The spec taxonomy name AccountGone, mapped to the dedicated error the
code throws when a valid token's subject no longer exists. -/
def AccountGone : JsErr := .objError "No user with the corresponding token exists"

/-- The spec taxonomy name InvalidCredentials, mapped to the dedicated
error the code throws on a password mismatch. -/
def InvalidCredentials : JsErr := .objError "Incorrect password"

/-- The spec taxonomy name InvalidToken: the jsonwebtoken error for a bad
signature or unparseable token, rethrown unchanged by `verifyToken`. -/
def InvalidToken : JsErr := .jwtInvalid

/-- The spec taxonomy name ExpiredToken: the jsonwebtoken error for an
elapsed expiry, rethrown unchanged by `verifyToken`. -/
def ExpiredToken : JsErr := .jwtExpired

/-- A JavaScript value is an account summary when it is an object carrying
at least an id field and an email field. -/
def isAccountSummary (v : JsValue) : Prop :=
  ∃ fs, v = JsValue.vObj fs ∧ (∃ x, ("id", x) ∈ fs) ∧ (∃ y, ("email", y) ∈ fs)

/-- A concrete bcrypt instance for witnesses: hash prepends a marker
character, verification checks that shape. -/
def toyBcrypt : Bcrypt :=
  { hashWith := fun _ p => "#" ++ p
    compareSync := fun plain stored => stored == "#" ++ plain }

/-- The empty store. -/
def st0 : Store := { users := [], roles := [], userRoles := [] }

/-- A store holding one account (id 1, email a@x.com, stored hash of pw1
under `toyBcrypt`). -/
def st1 : Store :=
  { users := [{ id := 1, email := "a@x.com", password := "#pw1" }]
    roles := []
    userRoles := [] }

/-- A token for the account of `st1`, signed with key1, issued at 0. -/
def tok1 : TokenBytes := .signed { email := "a@x.com", id := 1 } 0 oneDay "key1"

/-- A store with two accounts, a role named ADMIN (id 9), and a single
membership edge giving account 1 that role. -/
def stAdm : Store :=
  { users := [{ id := 1, email := "a@x.com", password := "#pw1" },
              { id := 2, email := "b@x.com", password := "#pw2" }]
    roles := [{ id := 9, name := "ADMIN" }]
    userRoles := [(1, 9)] }

/-- Field lookup in a serialised JavaScript object; `none` on non-objects
and absent keys. -/
def JsValue.getField (v : JsValue) (k : String) : Option JsValue :=
  match v with
  | .vObj fs => (fs.find? (fun kv => kv.1 == k)).map (fun kv => kv.2)
  | _ => none

/-- Helper: `verifyToken` only ever throws the two jsonwebtoken errors. -/
theorem verifyToken_error_cases (key : String) (now : Nat) (t : TokenBytes)
    (e : JsErr) (h : UserService.verifyToken key now t = .error e) :
    e = .jwtInvalid ∨ e = .jwtExpired := by
  cases t with
  | malformed s =>
    simp [UserService.verifyToken] at h
    exact Or.inl h.symm
  | signed p iat texp k =>
    by_cases hk : k = key
    · by_cases ht : texp ≤ now
      · simp [UserService.verifyToken, hk, ht] at h
        exact Or.inr h.symm
      · simp [UserService.verifyToken, hk, ht] at h
    · simp [UserService.verifyToken, hk] at h
      exact Or.inl h.symm

/-- C4: verifying a token freshly issued from a claims payload, before its
expiry, succeeds and the decoded payload carries exactly the original
identity and email (together with the stamped iat and exp). -/
theorem C4_token_roundtrip (key : String) (issueTime whenTime : Nat) (c : Claims)
    (h : whenTime < issueTime + oneDay) :
    UserService.verifyToken key whenTime (UserService.createToken key issueTime c) =
      .ok { email := c.email, id := c.id, iat := issueTime, tokenExp := issueTime + oneDay } := by
  have hlt : ¬ (issueTime + oneDay ≤ whenTime) := by omega
  simp [UserService.verifyToken, UserService.createToken, hlt]

/-- Witness for C4 at a concrete claims payload and times. -/
theorem C4_token_roundtrip_witness :
    UserService.verifyToken "key1" 5 (UserService.createToken "key1" 0
        { email := "a@x.com", id := 1 }) =
      .ok { email := "a@x.com", id := 1, iat := 0, tokenExp := 0 + oneDay } :=
  C4_token_roundtrip "key1" 0 5 { email := "a@x.com", id := 1 } (by decide)

/-- C5: token verification fails with the jsonwebtoken invalid-token error
on a malformed token or a signature made with a different key, and with
the expired-token error when the current time is at or past the encoded
expiry of a correctly signed token; it never succeeds in these cases. -/
theorem C5_verify_errors (key : String) (now : Nat) :
    (∀ s, UserService.verifyToken key now (.malformed s) = .error InvalidToken) ∧
    (∀ p iat texp k, k ≠ key →
      UserService.verifyToken key now (.signed p iat texp k) = .error InvalidToken) ∧
    (∀ p iat texp, texp ≤ now →
      UserService.verifyToken key now (.signed p iat texp key) = .error ExpiredToken) := by
  refine ⟨fun s => rfl, fun p iat texp k hk => ?_, fun p iat texp ht => ?_⟩
  · simp [UserService.verifyToken, hk, InvalidToken]
  · simp [UserService.verifyToken, ht, ExpiredToken]

/-- Witness for C5: a malformed token, a token signed with another key,
and an expired token, each rejected with the stated error. -/
theorem C5_verify_errors_witness :
    UserService.verifyToken "key1" 0 (.malformed "xx") = .error InvalidToken ∧
    UserService.verifyToken "key1" 0
      (.signed { email := "a@x.com", id := 1 } 0 oneDay "other") = .error InvalidToken ∧
    UserService.verifyToken "key1" oneDay
      (.signed { email := "a@x.com", id := 1 } 0 oneDay "key1") = .error ExpiredToken :=
  ⟨(C5_verify_errors "key1" 0).1 "xx",
   (C5_verify_errors "key1" 0).2.1 { email := "a@x.com", id := 1 } 0 oneDay "other" (by decide),
   (C5_verify_errors "key1" oneDay).2.2 { email := "a@x.com", id := 1 } 0 oneDay (le_refl oneDay)⟩

/-- C6: a cryptographically valid, unexpired token whose decoded identity
no longer resolves to an account makes `isAuthenticated` fail with the
dedicated account-gone error (the thrown object literal "No user with the
corresponding token exists") rather than succeed. -/
theorem C6_account_gone (key : String) (now : Nat) (st : Store) (t : TokenBytes)
    (d : Decoded) (hv : UserService.verifyToken key now t = .ok d)
    (hg : UserRepository.getById st d.id = none) :
    UserService.isAuthenticated key now st t = .error AccountGone := by
  simp [UserService.isAuthenticated, hv, truthy, decodedToJs, hg, AccountGone]

/-- Witness for C6: a valid token for account id 1 against the empty store. -/
theorem C6_account_gone_witness :
    UserService.isAuthenticated "key1" 10 st0 tok1 = .error AccountGone :=
  C6_account_gone "key1" 10 st0 tok1
    { email := "a@x.com", id := 1, iat := 0, tokenExp := oneDay } rfl rfl

/-- C9: `verifyToken` either throws or returns a decoded payload that is a
JavaScript object, hence truthy; consequently the `if (!response)` guard in
`isAuthenticated` is unreachable and the "Invalid token" object literal is
never thrown. -/
theorem C9_no_falsy_decode (key : String) (now : Nat) (st : Store) (t : TokenBytes) :
    (∀ d, UserService.verifyToken key now t = .ok d → truthy (decodedToJs d) = true) ∧
    UserService.isAuthenticated key now st t ≠ .error (JsErr.objError "Invalid token") := by
  constructor
  · intro d _
    rfl
  · intro hbad
    unfold UserService.isAuthenticated at hbad
    cases hv : UserService.verifyToken key now t with
    | error e =>
      rw [hv] at hbad
      rcases verifyToken_error_cases key now t e hv with he | he <;> subst he <;>
        simp at hbad
    | ok d =>
      rw [hv] at hbad
      simp [truthy, decodedToJs] at hbad
      cases hg : UserRepository.getById st d.id with
      | none => rw [hg] at hbad; simp at hbad
      | some u => rw [hg] at hbad; simp at hbad

/-- Witness for C9 at a concrete token, store and time. -/
theorem C9_no_falsy_decode_witness :
    truthy (decodedToJs { email := "a@x.com", id := 1, iat := 0, tokenExp := oneDay }) = true ∧
    UserService.isAuthenticated "key1" 10 st1 tok1 ≠ .error (JsErr.objError "Invalid token") :=
  ⟨(C9_no_falsy_decode "key1" 10 st1 tok1).1
      { email := "a@x.com", id := 1, iat := 0, tokenExp := oneDay } rfl,
   (C9_no_falsy_decode "key1" 10 st1 tok1).2⟩

/-- C10: the role-authorization entry points take only a user id; the
repository query is the parameterised role-membership query instantiated
at the hardcoded role name ADMIN, at every store and user id. -/
theorem C10_admin_hardcoded (st : Store) (uid : Nat) :
    UserRepository.isAdmin st uid = hasRoleNamed st uid "ADMIN" ∧
    UserService.isAdmin st uid = hasRoleNamed st uid "ADMIN" :=
  ⟨rfl, rfl⟩

/-- C1 counterexample: on a token that session validation accepts (valid
signature, unexpired, account exists) `isAuthenticated` returns the
JavaScript boolean `true`, which is not an object carrying an identity and
an email -- the claim that it returns an account summary fails. -/
theorem C1_counterexample :
    UserService.isAuthenticated "key1" 10 st1 tok1 = .ok (JsValue.vBool true) ∧
    ¬ isAccountSummary (JsValue.vBool true) := by
  refine ⟨rfl, ?_⟩
  rintro ⟨fs, hfs, -⟩
  exact JsValue.noConfusion hfs

/-- C1 amended: for every token that session validation accepts,
`isAuthenticated` returns merely the success flag `true`; the identity and
email of the subject account are not part of the returned value. -/
theorem C1_amended_flag_only (key : String) (now : Nat) (st : Store) (t : TokenBytes)
    (d : Decoded) (u : UserSummary)
    (hv : UserService.verifyToken key now t = .ok d)
    (hu : UserRepository.getById st d.id = some u) :
    UserService.isAuthenticated key now st t = .ok (JsValue.vBool true) := by
  simp [UserService.isAuthenticated, hv, truthy, decodedToJs, hu]

/-- Witness for the amended C1 at a concrete accepted token. -/
theorem C1_amended_flag_only_witness :
    UserService.isAuthenticated "key1" 10 st1 tok1 = .ok (JsValue.vBool true) :=
  C1_amended_flag_only "key1" 10 st1 tok1
    { email := "a@x.com", id := 1, iat := 0, tokenExp := oneDay }
    { email := "a@x.com", id := 1 } rfl rfl

/-- C2 counterexample: signing in with an email that matches no account
fails with a TypeError raised by reading `password` of the null lookup
result, not with the typed error AccountNotFound. -/
theorem C2_counterexample :
    UserService.signIn toyBcrypt st0 "key1" 0 "a@x.com" "pw1" =
      .error (.typeError "Cannot read properties of null (reading password)") ∧
    UserService.signIn toyBcrypt st0 "key1" 0 "a@x.com" "pw1" ≠
      .error JsErr.accountNotFound := by
  refine ⟨rfl, ?_⟩
  intro h
  simp [UserService.signIn, UserRepository.getByEmail, st0] at h

/-- C2 amended: when no account has the given email, `signIn` fails with a
TypeError from dereferencing the null lookup result (not a typed
AccountNotFound); when the account exists but the password does not
verify, it fails with the thrown object literal "Incorrect password"; when
the password verifies, it returns a token signed with the service key
whose claims are exactly the email and id of the account. -/
theorem C2_amended_signin (B : Bcrypt) (st : Store) (key : String) (now : Nat)
    (email pw : String) :
    (UserRepository.getByEmail st email = none →
      UserService.signIn B st key now email pw =
        .error (.typeError "Cannot read properties of null (reading password)")) ∧
    (∀ u, UserRepository.getByEmail st email = some u →
      B.compareSync pw u.password = false →
      UserService.signIn B st key now email pw = .error InvalidCredentials) ∧
    (∀ u, UserRepository.getByEmail st email = some u →
      B.compareSync pw u.password = true →
      UserService.signIn B st key now email pw =
        .ok (TokenBytes.signed { email := u.email, id := u.id } now (now + oneDay) key)) := by
  refine ⟨fun h => ?_, fun u hu hc => ?_, fun u hu hc => ?_⟩
  · simp [UserService.signIn, h]
  · simp [UserService.signIn, hu, UserService.checkPassword, hc, InvalidCredentials]
  · simp [UserService.signIn, hu, UserService.checkPassword, hc,
      UserService.createToken]

/-- Witness for the amended C2: a wrong password is rejected with the
incorrect-password error, the right password yields the signed token. -/
theorem C2_amended_signin_witness :
    UserService.signIn toyBcrypt st1 "key1" 0 "a@x.com" "bad" = .error InvalidCredentials ∧
    UserService.signIn toyBcrypt st1 "key1" 0 "a@x.com" "pw1" =
      .ok (TokenBytes.signed { email := "a@x.com", id := 1 } 0 (0 + oneDay) "key1") :=
  ⟨(C2_amended_signin toyBcrypt st1 "key1" 0 "a@x.com" "bad").2.1
      { id := 1, email := "a@x.com", password := "#pw1" } rfl rfl,
   (C2_amended_signin toyBcrypt st1 "key1" 0 "a@x.com" "pw1").2.2
      { id := 1, email := "a@x.com", password := "#pw1" } rfl rfl⟩

/-- C3: registration persists exactly one new account row whose stored
password column is hash(plaintext); under the hypothesis that the hash
function never fixes its input, the plaintext itself is not stored. -/
theorem C3_hash_persisted (B : Bcrypt) (salt : Nat) (st : Store) (nextId : Nat)
    (data : SignupData) (hB : ∀ s p, B.hashWith s p ≠ p) :
    ((UserService.create B salt st nextId data).1.users =
      st.users ++ [(UserService.create B salt st nextId data).2]) ∧
    (UserService.create B salt st nextId data).2.password =
      B.hashWith salt data.password ∧
    (UserService.create B salt st nextId data).2.password ≠ data.password :=
  ⟨rfl, rfl, hB salt data.password⟩

/-- Witness for C3 with the concrete marker-prepending hash, whose output
always differs from its input by length. -/
theorem C3_hash_persisted_witness :
    ((UserService.create toyBcrypt 0 st0 1 { email := "a@x.com", password := "pw1" }).1.users =
      st0.users ++ [(UserService.create toyBcrypt 0 st0 1
        { email := "a@x.com", password := "pw1" }).2]) ∧
    (UserService.create toyBcrypt 0 st0 1 { email := "a@x.com", password := "pw1" }).2.password =
      toyBcrypt.hashWith 0 "pw1" ∧
    (UserService.create toyBcrypt 0 st0 1 { email := "a@x.com", password := "pw1" }).2.password ≠
      "pw1" :=
  C3_hash_persisted toyBcrypt 0 st0 1 { email := "a@x.com", password := "pw1" }
    (fun s p h => by
      have h2 := congrArg String.length h
      simp only [toyBcrypt] at h2
      rw [String.length_append] at h2
      have h1 : String.length "#" = 1 := rfl
      rw [h1] at h2
      omega)

/-- C7 counterexample: querying admin membership for an identity that does
not resolve fails with a TypeError raised by calling `hasRole` on the null
lookup result, not with the typed error AccountNotFound. -/
theorem C7_counterexample :
    UserRepository.isAdmin st1 5 =
      .error (.typeError "Cannot read properties of null (reading hasRole)") ∧
    UserRepository.isAdmin st1 5 ≠ .error JsErr.accountNotFound := by
  refine ⟨rfl, ?_⟩
  intro h
  simp [UserRepository.isAdmin, findByPk, st1] at h

/-- C7 amended: when the identity does not resolve, the admin query fails
with a TypeError from the null dereference (not a typed AccountNotFound);
when the account exists but no role named ADMIN exists, it returns false
without an error; when both exist, it returns true exactly when the store
holds the membership edge between that account and that role. -/
theorem C7_amended_isadmin (st : Store) (uid : Nat) :
    (findByPk st uid = none →
      UserRepository.isAdmin st uid =
        .error (.typeError "Cannot read properties of null (reading hasRole)")) ∧
    (∀ u, findByPk st uid = some u → Role.findOne st "ADMIN" = none →
      UserRepository.isAdmin st uid = .ok false) ∧
    (∀ u r, findByPk st uid = some u → Role.findOne st "ADMIN" = some r →
      (UserRepository.isAdmin st uid = .ok true ↔ (u.id, r.id) ∈ st.userRoles)) := by
  refine ⟨fun h => ?_, fun u hu hr => ?_, fun u r hu hr => ?_⟩
  · simp [UserRepository.isAdmin, h]
  · simp [UserRepository.isAdmin, hu, hr, hasRoleMixin]
  · simp [UserRepository.isAdmin, hu, hr, hasRoleMixin, List.contains, List.elem_iff]

/-- Witness for the amended C7: account 1 of `stAdm` holds the ADMIN edge
(true), a missing identity in `st1` raises the TypeError, and an existing
identity in `st1` (which has no ADMIN role) yields false. -/
theorem C7_amended_isadmin_witness :
    UserRepository.isAdmin stAdm 1 = .ok true ∧
    UserRepository.isAdmin st1 5 =
      .error (.typeError "Cannot read properties of null (reading hasRole)") ∧
    UserRepository.isAdmin st1 1 = .ok false :=
  ⟨((C7_amended_isadmin stAdm 1).2.2 { id := 1, email := "a@x.com", password := "#pw1" }
      { id := 9, name := "ADMIN" } rfl rfl).mpr (by simp [stAdm]),
   (C7_amended_isadmin st1 5).1 rfl,
   (C7_amended_isadmin st1 1).2.1 { id := 1, email := "a@x.com", password := "#pw1" }
      rfl rfl⟩

/-- C8: at the failing input register(a@x.com, pw123), the value the
service returns outward is the full created row: its serialisation carries
a password field holding the stored secret-hash, contradicting the claim
(and the code's own doc comment) that only identity and email are
returned. -/
theorem C8_password_exposed :
    (UserService.create toyBcrypt 0 st0 1
        { email := "a@x.com", password := "pw123" }).2.password =
      toyBcrypt.hashWith 0 "pw123" ∧
    JsValue.getField (userToJson (UserService.create toyBcrypt 0 st0 1
        { email := "a@x.com", password := "pw123" }).2) "password" =
      some (JsValue.vStr (toyBcrypt.hashWith 0 "pw123")) :=
  ⟨rfl, rfl⟩

end AuthService
